import Mathlib

/-
Verification of the Museum Explorer API access layer (src/script.js).

The development shallowly embeds the resilient request executor
(makeApiCall, lines 57-137), the batched detail loader and inline
normalizer (loadArtworkDetails, lines 202-244), the browse/search page
flows (loadRandomArtworks lines 140-168, searchArtworks lines 170-200,
loadCuratedArtworks lines 247-274).

External effects are modelled as oracles:
  - each fetch attempt of the executor consumes one FetchOutcome from a
    list (either a transport-level rejection or an HTTP response with a
    status and an optional Retry-After header);
  - the mocked clock lives in ApiState.now; every awaited setTimeout
    advances it by the (nonnegative) requested delay;
  - the per-id detail fetch of the loader (makeApiCall composed with
    response.json) is a function from id to an ApiError or a RawArtwork;
  - the listing call of the page flows (makeApiCall composed with
    response.json) is a ListingOutcome.

The Retry-After header is modelled as an Option Nat: some n stands for a
header whose value is the decimal representation of n (a non-empty and
hence truthy string, with parseInt returning n); none stands for an
absent header.  Recursive functions take an explicit fuel argument; the
wrappers pass enough fuel that the fuel-exhaustion branch is never
reached on the modelled executions.
-/

namespace MuseumExplorer

/-- Truthiness of a possibly-absent JS string field: undefined and the
empty string are falsy, every other string is truthy. -/
def truthyStr : Option String → Bool
  | none => false
  | some s => s != ""

/-- The JS idiom (field or defaultValue) on a possibly-absent string. -/
def jsOr (o : Option String) (dflt : String) : String :=
  match o with
  | none => dflt
  | some s => if s == "" then dflt else s

/-- Raw Met API object as consumed by loadArtworkDetails (script.js
lines 211-224): the fields the callback reads, each possibly absent. -/
structure RawArtwork where
  objectID : Nat
  title : Option String
  primaryImage : Option String
  primaryImageSmall : Option String
  artistDisplayName : Option String
  department : Option String
  culture : Option String
  objectDate : Option String
  medium : Option String
deriving Repr, DecidableEq

/-- Normalized artwork record built at script.js lines 216-225. -/
structure ArtworkRecord where
  id : Nat
  title : String
  artist : String
  location : String
  image : String
  culture : Option String
  date : Option String
  medium : Option String
deriving Repr, DecidableEq

/-- Normalizer embedded from script.js lines 215-227: the record is
produced only when primaryImage and title are both truthy; artist and
location fall back to sentinels via the JS or-idiom; image prefers the
small variant. -/
def normalize (artwork : RawArtwork) : Option ArtworkRecord :=
  if truthyStr artwork.primaryImage && truthyStr artwork.title then
    some
      { id := artwork.objectID
        title := artwork.title.getD ""
        artist := jsOr artwork.artistDisplayName "Unknown Artist"
        location := jsOr artwork.department "Metropolitan Museum"
        image :=
          if truthyStr artwork.primaryImageSmall then
            artwork.primaryImageSmall.getD ""
          else
            artwork.primaryImage.getD ""
        culture := artwork.culture
        date := artwork.objectDate
        medium := artwork.medium }
  else
    none

/-- Process-wide rate limiting state (script.js lines 16-18) together
with the mocked clock. -/
structure ApiState where
  isRateLimited : Bool
  rateLimitResetTime : Option Int
  apiCallCount : Nat
  now : Int
deriving Repr, DecidableEq

/-- Initial state at process start: not limited, reset time null, zero
calls; the mocked clock starts at zero. -/
def initialApiState : ApiState :=
  { isRateLimited := false, rateLimitResetTime := none, apiCallCount := 0, now := 0 }

/-- Errors thrown by makeApiCall. rateLimitExceeded is the Error with
message starting with Rate limited (line 98); http carries the status of
a non-ok non-429 response (line 104); transport is the TypeError a
failed fetch rejects with; noOutcome is a model artifact marking an
exhausted outcome oracle (a fetch that never settles in JS). -/
inductive ApiError where
  | rateLimitExceeded
  | http (status : Nat)
  | transport
  | noOutcome
deriving Repr, DecidableEq

/-- The catch at script.js line 128 retries exactly the errors whose
name is TypeError or whose message mentions fetch: of the errors the
model can produce, only the transport error qualifies. -/
def retryableError : ApiError → Bool
  | .transport => true
  | _ => false

/-- One fetch attempt outcome supplied by the environment: either the
fetch promise rejects (transport failure) or it resolves to a response
with the given status and optional Retry-After header. -/
inductive FetchOutcome where
  | transportError
  | response (status : Nat) (retryAfter : Option Nat)
deriving Repr, DecidableEq

/-- Truthiness of the rateLimitResetTime variable (null and 0 are
falsy), as tested at script.js line 63. -/
def truthyTime : Option Int → Bool
  | none => false
  | some t => t != 0

/-- Embedding of script.js lines 63-68: when currently rate limited with
a truthy reset time still in the future, await the remaining wait (the
mocked clock advances to the reset time) and clear the limited flag;
otherwise do nothing. -/
def waitIfRateLimited (st : ApiState) : ApiState :=
  if st.isRateLimited && truthyTime st.rateLimitResetTime
      && decide (st.now < st.rateLimitResetTime.getD 0) then
    { st with now := st.rateLimitResetTime.getD 0, isRateLimited := false }
  else
    st

/-- Base delay of one second (script.js line 59). -/
def baseDelay : Int := 1000

/-- Maximum number of retries beyond the first attempt (script.js
line 58). -/
def maxRetries : Nat := 3

/-- Embedding of script.js lines 76-91: on a 429 response the limited
flag is set, and the reset time is computed from the Retry-After header
when the header is present (truthy string), otherwise by exponential
backoff from the current retry count. -/
def observe429 (st : ApiState) (retryAfter : Option Nat) (retryCount : Nat) : ApiState :=
  match retryAfter with
  | some n =>
      { st with isRateLimited := true
                rateLimitResetTime := some (st.now + (n : Int) * 1000) }
  | none =>
      { st with isRateLimited := true
                rateLimitResetTime := some (st.now + baseDelay * 2 ^ retryCount) }

/-- Embedding of the await at script.js line 95: sleep until the freshly
computed reset time (setTimeout clamps a negative delay to zero). -/
def waitUntilReset (st : ApiState) : ApiState :=
  { st with now := max st.now (st.rateLimitResetTime.getD 0) }

/-- Response.ok of the fetch API: status in the 2xx range. -/
def responseOk (status : Nat) : Bool :=
  decide (200 ≤ status) && decide (status ≤ 299)

/-- Result of one makeApiCall invocation: the returned value or thrown
error, the final shared state, and the outcomes not yet consumed. -/
structure CallResult where
  result : Except ApiError Nat
  state : ApiState
  remaining : List FetchOutcome

/-- The attempt counter increment at script.js line 70. -/
def bumpCount (st : ApiState) : ApiState :=
  { st with apiCallCount := st.apiCallCount + 1 }

/-- The exponential backoff sleep of script.js lines 130-132 (also the
wait of the catch retry after a re-caught 429-path failure): the mocked
clock advances by baseDelay times two to the retry count. -/
def backoffWait (st : ApiState) (retryCount : Nat) : ApiState :=
  { st with now := st.now + baseDelay * 2 ^ retryCount }

/-- Fuel-indexed embedding of makeApiCall (script.js lines 57-137).
Each invocation first runs the rate-limit gate (lines 63-68), counts the
attempt (line 70) and consumes one outcome as its fetch.  On a 429 with
retry budget left, the recursive retry at line 96 sits inside the try
block, so an error propagating out of it is re-caught by this
invocation's own catch (line 127) and, when retryable, retried again
after an exponential backoff computed from this invocation's retry
count (lines 128-133).  A transport failure retries from inside the
catch block, so its recursive call's errors propagate to the caller.
Non-ok non-429 responses throw immediately and are not retryable.  Fuel
zero (never reached when the wrapper supplies list length plus one)
returns the noOutcome artifact without touching the state. -/
def makeApiCallF : Nat → List FetchOutcome → ApiState → Nat → CallResult
  | 0, oracle, st, _ => ⟨.error .noOutcome, st, oracle⟩
  | _ + 1, [], st, _ =>
      ⟨.error .noOutcome, bumpCount (waitIfRateLimited st), []⟩
  | fuel + 1, o :: rest, st, retryCount =>
      let st2 := bumpCount (waitIfRateLimited st)
      match o with
      | .transportError =>
          if retryCount < maxRetries then
            makeApiCallF fuel rest (backoffWait st2 retryCount) (retryCount + 1)
          else
            ⟨.error .transport, st2, rest⟩
      | .response status retryAfter =>
          if status = 429 then
            let st3 := observe429 st2 retryAfter retryCount
            if retryCount < maxRetries then
              let inner := makeApiCallF fuel rest (waitUntilReset st3) (retryCount + 1)
              match inner.result with
              | .ok v => ⟨.ok v, inner.state, inner.remaining⟩
              | .error e =>
                  if retryCount < maxRetries && retryableError e then
                    makeApiCallF fuel inner.remaining
                      (backoffWait inner.state retryCount) (retryCount + 1)
                  else
                    ⟨.error e, inner.state, inner.remaining⟩
            else
              ⟨.error .rateLimitExceeded, st3, rest⟩
          else if responseOk status then
            ⟨.ok status, st2, rest⟩
          else
            ⟨.error (.http status), st2, rest⟩

/-- Executor entry point: makeApiCall over a given outcome oracle,
with enough fuel that the fuel-exhaustion branch is unreachable. -/
def makeApiCall (oracle : List FetchOutcome) (st : ApiState) (retryCount : Nat) : CallResult :=
  makeApiCallF (oracle.length + 1) oracle st retryCount

/-- Per-id detail fetch plus parse, as oracle for the loader: the
composite of makeApiCall on the objects/id URL and response.json,
yielding either a thrown ApiError or the parsed raw object. -/
abbrev DetailFetch := Nat → Except ApiError RawArtwork

/-- One callback of the batch map at script.js lines 209-232: any thrown
error is swallowed into null, a parsed object passes through the inline
normalizer (which may itself yield null). -/
def processOne (fetch : DetailFetch) (id : Nat) : Option ArtworkRecord :=
  match fetch id with
  | .error _ => none
  | .ok artwork => normalize artwork

/-- Batch size of the loader (script.js line 206). -/
def batchSize : Nat := 3

/-- Trace events of one loader run: dispatch of the request for an id as
part of a given batch, settlement of a whole batch (the await
Promise.all at line 234 resuming), and the inter-batch pacing delay
(line 239). -/
inductive LoadEvent where
  | dispatch (batchIdx : Nat) (id : Nat)
  | settled (batchIdx : Nat)
  | pause
deriving Repr, DecidableEq

/-- Fuel-indexed embedding of the batch loop of loadArtworkDetails
(script.js lines 207-241).  Each iteration slices off batchSize ids,
dispatches them in order, awaits them all, appends the non-null results,
and pauses iff ids remain (the test at line 238).  The trace records the
dispatch, settlement and pause events in program order. -/
def loadLoopF (fetch : DetailFetch) :
    Nat → Nat → List Nat → List LoadEvent × List ArtworkRecord
  | _, _, [] => ([], [])
  | 0, _, _ :: _ => ([], [])
  | fuel + 1, batchIdx, ids@(_ :: _) =>
      let batch := ids.take batchSize
      let rest := ids.drop batchSize
      let tail := loadLoopF fetch fuel (batchIdx + 1) rest
      (batch.map (LoadEvent.dispatch batchIdx) ++ [LoadEvent.settled batchIdx]
         ++ (if rest.isEmpty then [] else [LoadEvent.pause]) ++ tail.1,
       batch.filterMap (processOne fetch) ++ tail.2)

/-- Value returned by loadArtworkDetails: the concatenated non-null
normalized records of all batches, in processing order. -/
def loadArtworkDetails (fetch : DetailFetch) (objectIds : List Nat) : List ArtworkRecord :=
  (loadLoopF fetch objectIds.length 0 objectIds).2

/-- Event trace of one loadArtworkDetails run. -/
def loadEvents (fetch : DetailFetch) (objectIds : List Nat) : List LoadEvent :=
  (loadLoopF fetch objectIds.length 0 objectIds).1

/-- Fuel-indexed consecutive chunks of batchSize ids, mirroring the
slice loop of script.js line 207-208. -/
def chunksF : Nat → List Nat → List (List Nat)
  | _, [] => []
  | 0, _ :: _ => []
  | fuel + 1, ids@(_ :: _) => ids.take batchSize :: chunksF fuel (ids.drop batchSize)

/-- Consecutive chunks of batchSize ids. -/
def chunks (ids : List Nat) : List (List Nat) :=
  chunksF ids.length ids

/-- Outcome of the listing step of a page flow: the composite of
makeApiCall on the listing URL and response.json either throws an
ApiError or yields a body whose objectIDs field may be absent or null
(modelled as none) or an array of ids. -/
inductive ListingOutcome where
  | failure (e : ApiError)
  | success (objectIDs : Option (List Nat))
deriving Repr, DecidableEq

/-- Terminal user-visible result of a page flow: records displayed from
the live listing, records displayed via the curated fallback catalog, a
rate-limit error message, a generic error message, or the no-results
display. -/
inductive PageResult where
  | displayed (arts : List ArtworkRecord)
  | fallback (arts : List ArtworkRecord)
  | rateLimitMessage
  | errorMessage
  | noResults
deriving Repr, DecidableEq

/-- The error-text test at script.js lines 161 and 194: the message
contains the substring Rate limited exactly for the error thrown at
line 98. -/
def isRateLimitedMessage : ApiError → Bool
  | .rateLimitExceeded => true
  | _ => false

/-- Curated fallback catalog ids (script.js lines 252-265). -/
def curatedIds : List Nat :=
  [436532, 459123, 437853, 438817, 436105, 437984, 438821, 436947,
   459080, 437329, 438013, 436535]

/-- Embedding of loadCuratedArtworks (script.js lines 247-274): run the
curated ids through the loader and display the result.  The loader
never throws in the model, so the inner catch is unreachable. -/
def loadCuratedArtworks (fetch : DetailFetch) : PageResult :=
  PageResult.fallback (loadArtworkDetails fetch curatedIds)

/-- Embedding of loadRandomArtworks (script.js lines 140-168),
parameterized by the listing outcome, the random sample selection
(getRandomSample with its Math.random shuffle is modelled as an opaque
selection function supplied by the environment) and the per-id detail
fetch.  A truthy nonempty objectIDs array displays the sampled details;
otherwise the code throws No artworks found, whose message does not
match Rate limited, so the catch runs the curated fallback; a listing
failure runs the fallback unless its message matches Rate limited. -/
def loadRandomArtworks (listing : ListingOutcome) (sample : List Nat → List Nat)
    (fetch : DetailFetch) : PageResult :=
  match listing with
  | .failure e =>
      if isRateLimitedMessage e then PageResult.rateLimitMessage
      else loadCuratedArtworks fetch
  | .success objectIDs =>
      match objectIDs with
      | some ids =>
          if ids.length > 0 then
            PageResult.displayed (loadArtworkDetails fetch (sample ids))
          else
            loadCuratedArtworks fetch
      | none => loadCuratedArtworks fetch

/-- Embedding of searchArtworks (script.js lines 170-200): a truthy
nonempty objectIDs array displays the first 12 results; an empty or
absent array shows the no-results display; a failure shows the
rate-limit message or the generic search-failed message, never the
fallback catalog. -/
def searchArtworks (listing : ListingOutcome) (fetch : DetailFetch) : PageResult :=
  match listing with
  | .failure e =>
      if isRateLimitedMessage e then PageResult.rateLimitMessage
      else PageResult.errorMessage
  | .success objectIDs =>
      match objectIDs with
      | some ids =>
          if ids.length > 0 then
            PageResult.displayed (loadArtworkDetails fetch (ids.take 12))
          else
            PageResult.noResults
      | none => PageResult.noResults

/-- Worst-case number of fetch attempts a makeApiCall invocation entered
at a given retry count can issue: one plus two full sub-budgets at the
next retry count while budget remains, a single attempt once the budget
is exhausted. -/
def retryBudget (retryCount : Nat) : Nat :=
  2 ^ (maxRetries + 1 - min retryCount maxRetries) - 1

/-- Settlement test on trace events. -/
def isSettled : LoadEvent → Bool
  | .settled _ => true
  | _ => false

/-- Fixture: a detail fetch whose every request fails with a transport
error. -/
def failFetch : DetailFetch := fun _ => Except.error ApiError.transport

/-- Fixture: a detail fetch returning, for every id, a raw object with a
title and a primary image but no artist. -/
def okFetch : DetailFetch := fun id =>
  Except.ok
    { objectID := id, title := some "Wheat Field", primaryImage := some "met.jpg",
      primaryImageSmall := none, artistDisplayName := none, department := none,
      culture := none, objectDate := none, medium := none }

/-- Fixture: a detail fetch failing with a 404 on even ids and
succeeding on odd ids. -/
def mixedFetch : DetailFetch := fun id =>
  if id % 2 = 0 then Except.error (ApiError.http 404) else okFetch id

/-- Fixture: twelve distinct object ids. -/
def twelveIds : List Nat := [1, 2, 3, 4, 5, 6, 7, 8, 9, 10, 11, 12]

/-- Fixture: a raw object with truthy title and image and an absent
artist name. -/
def rawFixture : RawArtwork :=
  { objectID := 7, title := some "Irises", primaryImage := some "met.jpg",
    primaryImageSmall := none, artistDisplayName := none, department := none,
    culture := none, objectDate := none, medium := none }

/-- The rate-limit gate, the 429 observation and the backoff sleep never
touch the attempt counter. -/
theorem waitIfRateLimited_count (st : ApiState) :
    (waitIfRateLimited st).apiCallCount = st.apiCallCount := by
  unfold waitIfRateLimited
  split <;> rfl

/-- The 429 observation never touches the attempt counter. -/
theorem observe429_count (st : ApiState) (retryAfter : Option Nat) (retryCount : Nat) :
    (observe429 st retryAfter retryCount).apiCallCount = st.apiCallCount := by
  unfold observe429
  cases retryAfter <;> rfl

/-- The sleep until the reset time never touches the attempt counter. -/
theorem waitUntilReset_count (st : ApiState) :
    (waitUntilReset st).apiCallCount = st.apiCallCount := rfl

/-- Every invocation can issue at least one attempt worth of budget. -/
theorem retryBudget_pos (retryCount : Nat) : 1 ≤ retryBudget retryCount := by
  unfold retryBudget maxRetries
  have h : 1 ≤ 3 + 1 - min retryCount 3 := by omega
  have h2 : 2 ^ 1 ≤ 2 ^ (3 + 1 - min retryCount 3) :=
    Nat.pow_le_pow_right (by omega) h
  omega

/-- Budget recurrence: below the retry cap, an invocation spends one
attempt and at most two full sub-budgets at the next count. -/
theorem retryBudget_succ (retryCount : Nat) (h : retryCount < maxRetries) :
    retryBudget retryCount = 1 + 2 * retryBudget (retryCount + 1) := by
  unfold maxRetries at h
  interval_cases retryCount <;> decide

/-- The attempt counter after the pre-fetch bookkeeping is the entry
counter plus one. -/
theorem bumpCount_count (st : ApiState) :
    (bumpCount (waitIfRateLimited st)).apiCallCount = st.apiCallCount + 1 := by
  simp [bumpCount, waitIfRateLimited_count]

/-- The backoff sleep never touches the attempt counter. -/
theorem backoffWait_count (st : ApiState) (retryCount : Nat) :
    (backoffWait st retryCount).apiCallCount = st.apiCallCount := rfl

/-- Attempt-count bound for the fuel-indexed executor: an invocation
entered at a given retry count issues at most retryBudget attempts. -/
theorem makeApiCallF_count (fuel : Nat) :
    ∀ (oracle : List FetchOutcome) (st : ApiState) (retryCount : Nat),
      (makeApiCallF fuel oracle st retryCount).state.apiCallCount
        ≤ st.apiCallCount + retryBudget retryCount := by
  induction fuel with
  | zero =>
      intro oracle st retryCount
      have := retryBudget_pos retryCount
      simp only [makeApiCallF]
      omega
  | succ f ih =>
      intro oracle st retryCount
      cases oracle with
      | nil =>
          have := retryBudget_pos retryCount
          simp only [makeApiCallF, bumpCount_count]
          omega
      | cons o rest =>
          cases o with
          | transportError =>
              by_cases h : retryCount < maxRetries
              · have hb := retryBudget_succ retryCount h
                have hbp := retryBudget_pos (retryCount + 1)
                simp only [makeApiCallF, if_pos h]
                have h1 := ih rest
                  (backoffWait (bumpCount (waitIfRateLimited st)) retryCount)
                  (retryCount + 1)
                rw [backoffWait_count, bumpCount_count] at h1
                omega
              · have := retryBudget_pos retryCount
                simp only [makeApiCallF, if_neg h, bumpCount_count]
                omega
          | response status retryAfter =>
              by_cases h429 : status = 429
              · subst h429
                by_cases h : retryCount < maxRetries
                · have hb := retryBudget_succ retryCount h
                  simp only [makeApiCallF, if_pos rfl, if_pos h]
                  have hInner := ih rest
                    (waitUntilReset (observe429 (bumpCount (waitIfRateLimited st))
                      retryAfter retryCount))
                    (retryCount + 1)
                  rw [waitUntilReset_count, observe429_count, bumpCount_count] at hInner
                  cases hres : (makeApiCallF f rest
                      (waitUntilReset (observe429 (bumpCount (waitIfRateLimited st))
                        retryAfter retryCount))
                      (retryCount + 1)).result with
                  | ok v =>
                      simp only [hres, if_true]
                      omega
                  | error e =>
                      simp only [hres, if_true]
                      by_cases hr : (decide (retryCount < maxRetries) && retryableError e) = true
                      · rw [if_pos hr]
                        have hRetry := ih
                          (makeApiCallF f rest
                            (waitUntilReset (observe429 (bumpCount (waitIfRateLimited st))
                              retryAfter retryCount)) (retryCount + 1)).remaining
                          (backoffWait
                            (makeApiCallF f rest
                              (waitUntilReset (observe429 (bumpCount (waitIfRateLimited st))
                                retryAfter retryCount)) (retryCount + 1)).state
                            retryCount)
                          (retryCount + 1)
                        rw [backoffWait_count] at hRetry
                        omega
                      · rw [if_neg hr]
                        dsimp only
                        omega
                · have := retryBudget_pos retryCount
                  simp only [makeApiCallF, if_true, if_neg h]
                  simp only [observe429_count, bumpCount_count]
                  omega
              · have := retryBudget_pos retryCount
                by_cases hok : responseOk status = true
                · simp only [makeApiCallF, if_neg h429, if_pos hok, bumpCount_count]
                  omega
                · simp only [makeApiCallF, if_neg h429, if_neg hok, bumpCount_count]
                  omega

/-- With fuel at least the id count, the loader body returns exactly the
non-null normalized results of all ids, in input order. -/
theorem loadLoopF_snd (fetch : DetailFetch) :
    ∀ (fuel batchIdx : Nat) (ids : List Nat), ids.length ≤ fuel →
      (loadLoopF fetch fuel batchIdx ids).2 = ids.filterMap (processOne fetch) := by
  intro fuel
  induction fuel with
  | zero =>
      intro batchIdx ids h
      have hnil : ids = [] := List.eq_nil_of_length_eq_zero (by omega)
      subst hnil
      simp [loadLoopF]
  | succ f ih =>
      intro batchIdx ids h
      cases ids with
      | nil => simp [loadLoopF]
      | cons a t =>
          simp only [loadLoopF]
          rw [ih (batchIdx + 1) ((a :: t).drop batchSize)
            (by simp only [List.length_drop, List.length_cons, batchSize] at h ⊢; omega)]
          rw [← List.filterMap_append, List.take_append_drop]

/-- The loader body concatenates, chunk after chunk in processing order,
each chunk's non-null normalized results. -/
theorem loadLoopF_chunksF (fetch : DetailFetch) :
    ∀ (fuel batchIdx : Nat) (ids : List Nat),
      (loadLoopF fetch fuel batchIdx ids).2 =
        ((chunksF fuel ids).map fun batch => batch.filterMap (processOne fetch)).flatten := by
  intro fuel
  induction fuel with
  | zero =>
      intro batchIdx ids
      cases ids <;> simp [loadLoopF, chunksF]
  | succ f ih =>
      intro batchIdx ids
      cases ids with
      | nil => simp [loadLoopF, chunksF]
      | cons a t =>
          simp only [loadLoopF, chunksF, List.map_cons, List.flatten_cons]
          rw [ih]

/-- Claim C1 (corrected): the executor does NOT keep total fetch
attempts within maxRetries plus one; the true bound is retryBudget,
which is 15 for a request entered at attempt zero.  The 429-triggered
retry at script.js line 96 runs inside the try block, so a retryable
transport failure propagating out of such a retry is re-caught at line
127 by enclosing invocations holding smaller retry counts, which retry
again.  The attempt counter apiCallCount records one increment per fetch
attempt, so this theorem bounds total attempts of one logical request by
retryBudget of its entry retry count. -/
theorem c1_attempt_bound_amended (oracle : List FetchOutcome) (st : ApiState)
    (retryCount : Nat) :
    (makeApiCall oracle st retryCount).state.apiCallCount
        ≤ st.apiCallCount + retryBudget retryCount ∧
    retryBudget 0 = 15 := by
  refine ⟨makeApiCallF_count (oracle.length + 1) oracle st retryCount, by decide⟩

/-- Claim C1 counterexample: with the outcome sequence 429, transport
failure, transport failure, transport failure, 200, a single logical
request through makeApiCall issues five fetch attempts — more than the
claimed four — and still returns the eventual 200 response. -/
theorem c1_counterexample :
    (makeApiCall
      [FetchOutcome.response 429 none, FetchOutcome.transportError,
       FetchOutcome.transportError, FetchOutcome.transportError,
       FetchOutcome.response 200 none] initialApiState 0).result = Except.ok 200 ∧
    (makeApiCall
      [FetchOutcome.response 429 none, FetchOutcome.transportError,
       FetchOutcome.transportError, FetchOutcome.transportError,
       FetchOutcome.response 200 none] initialApiState 0).state.apiCallCount = 5 ∧
    ¬ (makeApiCall
      [FetchOutcome.response 429 none, FetchOutcome.transportError,
       FetchOutcome.transportError, FetchOutcome.transportError,
       FetchOutcome.response 200 none] initialApiState 0).state.apiCallCount
        ≤ maxRetries + 1 := by
  refine ⟨rfl, by decide, by decide⟩

/-- Claim C2 (amended): on a 429 the tracker is marked limited, and the
reset time uses the Retry-After header whenever the header is present
(its decimal value need not be positive: the header string is truthy
even for value zero, so the header always takes precedence), and the
exponential backoff baseDelay times two to the attempt only when the
header is absent. -/
theorem c2_resetAt_amended (st : ApiState) (retryCount : Nat) (n : Nat) :
    (observe429 st (some n) retryCount).isRateLimited = true ∧
    (observe429 st (some n) retryCount).rateLimitResetTime
        = some (st.now + (n : Int) * 1000) ∧
    (observe429 st none retryCount).isRateLimited = true ∧
    (observe429 st none retryCount).rateLimitResetTime
        = some (st.now + baseDelay * 2 ^ retryCount) := by
  refine ⟨rfl, rfl, rfl, rfl⟩

/-- Claim C2 counterexample: a 429 carrying a Retry-After header whose
value parses to zero — not a positive integer, so the claim demands the
exponential backoff reset time now plus baseDelay — actually sets the
reset time to now plus zero, because the truthiness test at script.js
line 82 only checks that the header string is non-empty. -/
theorem c2_counterexample :
    (observe429 ⟨false, none, 0, 5⟩ (some 0) 0).rateLimitResetTime = some 5 ∧
    (observe429 ⟨false, none, 0, 5⟩ (some 0) 0).rateLimitResetTime
        ≠ some ((5 : Int) + baseDelay * 2 ^ 0) := by
  refine ⟨rfl, by decide⟩

/-- Claim C3 (amended): when the tracker is limited with a truthy reset
time, a request attempt that starts strictly before the reset time waits
until the reset time and clears the limited flag before fetching, while
an attempt that starts at or after the reset time neither waits nor
clears the flag.  In the Retry-After 2 scenario the wait before the
second attempt is exactly 2000 ms on the mocked clock, and the limited
flag is still set after the successful retry (the line 95 wait ends
exactly at the reset time, so the line 63 guard of the next attempt is
false and the line 67 clear never runs). -/
theorem c3_gate_amended (st : ApiState) (t : Int) (h1 : st.isRateLimited = true)
    (h2 : st.rateLimitResetTime = some t) (h3 : t ≠ 0) :
    (st.now < t →
      waitIfRateLimited st = { st with isRateLimited := false, now := t }) ∧
    (t ≤ st.now → waitIfRateLimited st = st) ∧
    (makeApiCall [FetchOutcome.response 429 (some 2), FetchOutcome.response 200 none]
        initialApiState 0).result = Except.ok 200 ∧
    (makeApiCall [FetchOutcome.response 429 (some 2), FetchOutcome.response 200 none]
        initialApiState 0).state.now = 2000 ∧
    (makeApiCall [FetchOutcome.response 429 (some 2), FetchOutcome.response 200 none]
        initialApiState 0).state.isRateLimited = true := by
  refine ⟨?_, ?_, rfl, by decide, rfl⟩
  · intro hlt
    unfold waitIfRateLimited
    rw [if_pos]
    · simp [h2]
    · simp [h1, h2, truthyTime, h3, hlt]
  · intro hge
    unfold waitIfRateLimited
    rw [if_neg]
    simp only [h1, h2, truthyTime, Option.getD_some, Bool.true_and]
    intro hcontra
    simp only [Bool.and_eq_true, decide_eq_true_eq] at hcontra
    omega

/-- Witness for claim C3: the amended gate behavior at the concrete
limited state with reset time 500 and clock 0. -/
theorem c3_gate_witness :
    waitIfRateLimited ⟨true, some 500, 0, 0⟩
      = { (⟨true, some 500, 0, 0⟩ : ApiState) with isRateLimited := false, now := 500 } :=
  (c3_gate_amended ⟨true, some 500, 0, 0⟩ 500 rfl rfl (by decide)).1 (by decide)

/-- Claim C3 counterexample: refutes the claim that once now is at or
past resetAt the next attempt clears isLimited.  First, the Retry-After
2 scenario: a 429 with Retry-After 2 followed by a 200 on the retry
waits exactly 2000 ms, yet the limited flag is still true after the
successful retry.  Second, a limited tracker whose reset time 1000 lies
before the clock 5000 keeps its limited flag through a successful
attempt. -/
theorem c3_counterexample :
    (makeApiCall [FetchOutcome.response 429 (some 2), FetchOutcome.response 200 none]
        initialApiState 0).result = Except.ok 200 ∧
    (makeApiCall [FetchOutcome.response 429 (some 2), FetchOutcome.response 200 none]
        initialApiState 0).state.now = 2000 ∧
    (makeApiCall [FetchOutcome.response 429 (some 2), FetchOutcome.response 200 none]
        initialApiState 0).state.isRateLimited = true ∧
    (makeApiCall [FetchOutcome.response 200 none] ⟨true, some 1000, 0, 5000⟩ 0).result
        = Except.ok 200 ∧
    (makeApiCall [FetchOutcome.response 200 none]
        ⟨true, some 1000, 0, 5000⟩ 0).state.isRateLimited = true := by
  refine ⟨rfl, by decide, rfl, rfl, rfl⟩

/-- Claim C5 (confirmed): a response whose status is neither 429 nor a
2xx success makes makeApiCall fail on that very attempt with the HTTP
error carrying the status: exactly one outcome is consumed (one fetch
attempt, zero retries) and the remaining oracle is untouched. -/
theorem c5_http_no_retry (st : ApiState) (retryCount : Nat) (status : Nat)
    (retryAfter : Option Nat) (rest : List FetchOutcome)
    (hnot429 : status ≠ 429) (hnotOk : responseOk status = false) :
    (makeApiCall (FetchOutcome.response status retryAfter :: rest) st retryCount).result
        = Except.error (ApiError.http status) ∧
    (makeApiCall (FetchOutcome.response status retryAfter :: rest) st retryCount).remaining
        = rest ∧
    (makeApiCall (FetchOutcome.response status retryAfter :: rest) st
        retryCount).state.apiCallCount = st.apiCallCount + 1 := by
  have hok : ¬ (responseOk status = true) := by simp [hnotOk]
  refine ⟨?_, ?_, ?_⟩ <;>
    simp [makeApiCall, makeApiCallF, hnot429, hok, bumpCount_count]

/-- Witness for claim C5: a 404 on the first attempt of a fresh request
fails immediately with the HTTP 404 error after exactly one attempt. -/
theorem c5_http_no_retry_witness :
    (makeApiCall [FetchOutcome.response 404 none] initialApiState 0).result
        = Except.error (ApiError.http 404) ∧
    (makeApiCall [FetchOutcome.response 404 none] initialApiState 0).remaining = [] ∧
    (makeApiCall [FetchOutcome.response 404 none] initialApiState 0).state.apiCallCount
        = initialApiState.apiCallCount + 1 :=
  c5_http_no_retry initialApiState 0 404 none [] (by decide) (by decide)

/-- Claim C6 (confirmed): for EVERY raw object, normalization returns
null exactly when primaryImage and title are not both present and
non-empty; and whenever the artist display name is absent or empty, any
record produced carries the sentinel artist Unknown Artist. -/
theorem c6_normalize (raw : RawArtwork) :
    (normalize raw = none ↔
      (truthyStr raw.primaryImage && truthyStr raw.title) = false) ∧
    (truthyStr raw.artistDisplayName = false →
      (normalize raw).map ArtworkRecord.artist
          = (normalize raw).map fun _ => "Unknown Artist") := by
  constructor
  · unfold normalize
    cases hc : truthyStr raw.primaryImage && truthyStr raw.title <;> simp [hc]
  · intro h
    unfold normalize
    cases hc : truthyStr raw.primaryImage && truthyStr raw.title
    · simp
    · simp only [if_pos rfl, if_true, Option.map_some]
      have : jsOr raw.artistDisplayName "Unknown Artist" = "Unknown Artist" := by
        unfold jsOr
        cases hraw : raw.artistDisplayName with
        | none => rfl
        | some s =>
            rw [hraw] at h
            simp only [truthyStr] at h
            simp only [bne_eq_false_iff_eq] at h
            simp [h]
      simp [this]

/-- Witness for claim C6: the null-iff characterization at a raw object
with a truthy title and image, and the sentinel artist conclusion with
the absent-artist hypothesis discharged at that same object. -/
theorem c6_normalize_witness :
    (normalize rawFixture = none ↔
      (truthyStr rawFixture.primaryImage && truthyStr rawFixture.title) = false) ∧
    (normalize rawFixture).map ArtworkRecord.artist
        = (normalize rawFixture).map fun _ => "Unknown Artist" :=
  ⟨(c6_normalize rawFixture).1, (c6_normalize rawFixture).2 (by decide)⟩

/-- Claim C9 (confirmed): a search whose listing call succeeds with an
empty objectIDs array terminates in the no-results display — by
construction of PageResult a different state than the error message or
the fallback catalog — for every detail fetch environment. -/
theorem c9_search_no_results (fetch : DetailFetch) :
    searchArtworks (ListingOutcome.success (some [])) fetch = PageResult.noResults := rfl

/-- Claim C4 (amended): on the random-browse path the fallback catalog
is used exactly when the listing step fails with an error whose message
does not match Rate limited, or when the listing succeeds but its
objectIDs field is absent or empty (the code throws No artworks found
in that case and the catch routes it to the curated fallback); the
search path never uses the fallback catalog. -/
theorem c4_fallback_amended (listing : ListingOutcome) (sample : List Nat → List Nat)
    (fetch : DetailFetch) :
    ((∃ arts, loadRandomArtworks listing sample fetch = PageResult.fallback arts) ↔
      (∃ e, listing = ListingOutcome.failure e ∧ isRateLimitedMessage e = false) ∨
        listing = ListingOutcome.success none ∨
        listing = ListingOutcome.success (some [])) ∧
    ∀ (listing2 : ListingOutcome) (fetch2 : DetailFetch) (arts : List ArtworkRecord),
      searchArtworks listing2 fetch2 ≠ PageResult.fallback arts := by
  constructor
  · cases listing with
    | failure e =>
        cases hre : isRateLimitedMessage e
        · simp [loadRandomArtworks, loadCuratedArtworks, hre]
        · simp [loadRandomArtworks, hre]
    | success objectIDs =>
        cases objectIDs with
        | none => simp [loadRandomArtworks, loadCuratedArtworks]
        | some ids =>
            cases ids with
            | nil => simp [loadRandomArtworks, loadCuratedArtworks]
            | cons a t => simp [loadRandomArtworks]
  · intro listing2 fetch2 arts
    cases listing2 with
    | failure e => cases hre : isRateLimitedMessage e <;> simp [searchArtworks, hre]
    | success objectIDs =>
        cases objectIDs with
        | none => simp [searchArtworks]
        | some ids =>
            cases ids with
            | nil => simp [searchArtworks]
            | cons a t => simp [searchArtworks]

/-- Claim C4 counterexample: a listing call that succeeds with an empty
objectIDs array — NOT a failing listing step — does trigger the fallback
catalog on the browse path (every curated detail fetch fails here, so
the fallback displays an empty list). -/
theorem c4_counterexample :
    loadRandomArtworks (ListingOutcome.success (some [])) (fun ids => ids) failFetch
        = PageResult.fallback [] := by decide

/-- Claim C7 (confirmed): a per-id detail fetch that fails with any
error kind yields null for that id instead of failing the batch; the
loader returns a list no longer than the input, and its output is the
chunk-by-chunk concatenation, in processing order, of each chunk's
successfully normalized records. -/
theorem c7_loader_swallows (fetch : DetailFetch) (ids : List Nat) (id : Nat)
    (e : ApiError) (hfail : fetch id = Except.error e) :
    processOne fetch id = none ∧
    (loadArtworkDetails fetch ids).length ≤ ids.length ∧
    loadArtworkDetails fetch ids
        = ((chunks ids).map fun batch => batch.filterMap (processOne fetch)).flatten := by
  refine ⟨?_, ?_, ?_⟩
  · unfold processOne
    rw [hfail]
  · unfold loadArtworkDetails
    rw [loadLoopF_snd fetch ids.length 0 ids le_rfl]
    exact List.length_filterMap_le _ _
  · exact loadLoopF_chunksF fetch ids.length 0 ids

/-- Witness for claim C7: with a fetch failing on even ids, the loader
over four ids drops the failed ids and keeps the batchwise shape. -/
theorem c7_loader_swallows_witness :
    processOne mixedFetch 2 = none ∧
    (loadArtworkDetails mixedFetch [1, 2, 3, 4]).length ≤ ([1, 2, 3, 4] : List Nat).length ∧
    loadArtworkDetails mixedFetch [1, 2, 3, 4]
        = ((chunks [1, 2, 3, 4]).map fun batch =>
            batch.filterMap (processOne mixedFetch)).flatten :=
  c7_loader_swallows mixedFetch [1, 2, 3, 4] 2 (ApiError.http 404) rfl

/-- Claim C8 (confirmed): on a twelve-id input with batch size three the
loader issues exactly four batches; the trace shows each batch's
dispatches followed by its settlement before any dispatch of the next
batch (await Promise.all), and the pacing pause runs after every batch
except the last. -/
theorem c8_batches (fetch : DetailFetch) (ids : List Nat) (h : ids.length = 12) :
    loadEvents fetch ids =
      (ids.take 3).map (LoadEvent.dispatch 0)
        ++ [LoadEvent.settled 0, LoadEvent.pause]
        ++ ((ids.drop 3).take 3).map (LoadEvent.dispatch 1)
        ++ [LoadEvent.settled 1, LoadEvent.pause]
        ++ (((ids.drop 3).drop 3).take 3).map (LoadEvent.dispatch 2)
        ++ [LoadEvent.settled 2, LoadEvent.pause]
        ++ ((((ids.drop 3).drop 3).drop 3).take 3).map (LoadEvent.dispatch 3)
        ++ [LoadEvent.settled 3] ∧
    ((loadEvents fetch ids).filter isSettled).length = 4 := by
  cases ids with
  | nil => simp at h
  | cons a1 t1 =>
  cases t1 with
  | nil => simp at h
  | cons a2 t2 =>
  cases t2 with
  | nil => simp at h
  | cons a3 t3 =>
  cases t3 with
  | nil => simp at h
  | cons a4 t4 =>
  cases t4 with
  | nil => simp at h
  | cons a5 t5 =>
  cases t5 with
  | nil => simp at h
  | cons a6 t6 =>
  cases t6 with
  | nil => simp at h
  | cons a7 t7 =>
  cases t7 with
  | nil => simp at h
  | cons a8 t8 =>
  cases t8 with
  | nil => simp at h
  | cons a9 t9 =>
  cases t9 with
  | nil => simp at h
  | cons a10 t10 =>
  cases t10 with
  | nil => simp at h
  | cons a11 t11 =>
  cases t11 with
  | nil => simp at h
  | cons a12 t12 =>
  cases t12 with
  | cons a13 t13 =>
      simp only [List.length_cons] at h
      omega
  | nil => exact ⟨rfl, rfl⟩

/-- Witness for claim C8: the trace at twelve concrete ids under the
always-failing fetch. -/
theorem c8_batches_witness :
    twelveIds.length = 12 ∧
    (loadEvents failFetch twelveIds =
      (twelveIds.take 3).map (LoadEvent.dispatch 0)
        ++ [LoadEvent.settled 0, LoadEvent.pause]
        ++ ((twelveIds.drop 3).take 3).map (LoadEvent.dispatch 1)
        ++ [LoadEvent.settled 1, LoadEvent.pause]
        ++ (((twelveIds.drop 3).drop 3).take 3).map (LoadEvent.dispatch 2)
        ++ [LoadEvent.settled 2, LoadEvent.pause]
        ++ ((((twelveIds.drop 3).drop 3).drop 3).take 3).map (LoadEvent.dispatch 3)
        ++ [LoadEvent.settled 3] ∧
    ((loadEvents failFetch twelveIds).filter isSettled).length = 4) :=
  ⟨by decide, c8_batches failFetch twelveIds (by decide)⟩

/-- Claim C10 (confirmed): the loader's output preserves the full input
order of the ids, not only the batch-to-batch order: it equals the
filterMap of the per-id pipeline over the whole input list, because
Promise.all collects a batch's results in the batch's input order before
nulls are filtered. -/
theorem c10_full_order (fetch : DetailFetch) (ids : List Nat) :
    loadArtworkDetails fetch ids = ids.filterMap (processOne fetch) :=
  loadLoopF_snd fetch ids.length 0 ids le_rfl

end MuseumExplorer
